import Mathlib

/-!
Shallow embedding of the amt-notifier availability engine
(`src/services/availability_fetcher.py`, `src/services/session_manager.py`)
together with theorems settling the frozen claims about it.

Conventions of the embedding:
* Python dictionaries holding the per-location snapshots are modelled as
  functions `Int → List String` (every tracked location is initialised, so
  total functions are faithful).
* The network is modelled as an explicit environment: each outbound request
  consumes one `HttpResponse` (or one `SessionAttempt`) from the environment.
* Exceptions that the Python code catches are modelled by the corresponding
  branch returning the unchanged state.
* `datetime.fromtimestamp(ms / 1000).strftime("%d.%m.%Y")` is modelled in
  UTC (the civil-from-days calendar algorithm); the source uses the local
  time zone, which only shifts which day a given instant falls on and is
  irrelevant to the claims, none of which pins a concrete calendar day.
-/

namespace AmtNotifier

/-- Calendar conversion: days since the Unix epoch to `(year, month, day)`
in the proleptic Gregorian calendar (the standard civil-from-days
algorithm).  This is the day computed by `datetime.fromtimestamp` for a
UTC clock. -/
def civilFromDays (z : Int) : Int × Int × Int :=
  let z2 := z + 719468
  let era := Int.fdiv z2 146097
  let doe := z2 - era * 146097
  let yoe := Int.fdiv (doe - Int.fdiv doe 1460 + Int.fdiv doe 36524 - Int.fdiv doe 146096) 365
  let y := yoe + era * 400
  let doy := doe - (365 * yoe + Int.fdiv yoe 4 - Int.fdiv yoe 100)
  let mp := Int.fdiv (5 * doy + 2) 153
  let d := doy - Int.fdiv (153 * mp + 2) 5 + 1
  let m := if mp < 10 then mp + 3 else mp - 9
  (if m ≤ 2 then y + 1 else y, m, d)

/-- Two-digit zero padding, as produced by `strftime`'s `%d` and `%m`. -/
def pad2 (n : Int) : String :=
  if n < 10 then "0" ++ toString n else toString n

/-- Embeds `datetime.datetime.fromtimestamp(timestamp / 1000).strftime('%d.%m.%Y')`
from `AvailabilityFetcher.process_data`: a millisecond epoch timestamp is
turned into a `DD.MM.YYYY` display string. -/
def formatTimestamp (ms : Int) : String :=
  let secs := Int.fdiv ms 1000
  let days := Int.fdiv secs 86400
  let ymd := civilFromDays days
  pad2 ymd.2.2 ++ "." ++ pad2 ymd.2.1 ++ "." ++ toString ymd.1

/-- One entry of the `availability-dates` array of the remote payload:
either a raw integer timestamp, an already formatted string, an object
whose `date` field carries the nested value, an object without a `date`
key (whose `entry.get('date')` is Python `None`), or a value of any other
JSON shape. -/
inductive Entry where
  | vint (ms : Int)
  | vstr (s : String)
  | vobjWith (dateField : Entry)
  | vobjMissing
  | vother
deriving Repr, DecidableEq

/-- Embeds `entry.get('date') if isinstance(entry, dict) else entry` from
`AvailabilityFetcher.process_data`: the value the isinstance checks are
applied to, `none` standing for Python `None`. -/
def entryTimestamp : Entry → Option Entry
  | .vobjWith d => some d
  | .vobjMissing => none
  | e => some e

/-- Embeds the per-entry branch of `AvailabilityFetcher.process_data`:
an integer timestamp is formatted, a string passes through unchanged, and
anything else is logged and skipped (`none`). -/
def parseEntry (e : Entry) : Option String :=
  match entryTimestamp e with
  | some (.vint ms) => some (formatTimestamp ms)
  | some (.vstr s) => some s
  | _ => none

/-- Embeds the `dates_list` accumulation loop of
`AvailabilityFetcher.process_data`: entries are parsed in order and the
skipped ones contribute nothing. -/
def parseDates (entries : List Entry) : List String :=
  entries.filterMap parseEntry

/-- The JSON body of a successful availability response.
`availabilityDates = none` models a body without the
`availability-dates` field. -/
structure ApiData where
  availabilityDates : Option (List Entry)
deriving Repr, DecidableEq

/-- Embeds `data.get('availability-dates', [])`: a missing field defaults
to the empty list. -/
def ApiData.getDates (d : ApiData) : List Entry :=
  d.availabilityDates.getD []

/-- The outcome of the locked update step of
`AvailabilityFetcher.process_data` for one location: the stored snapshot
after the step and whether `notify_subscribers` was invoked. -/
structure ProcessResult where
  snapshot : List String
  notified : Bool
deriving Repr, DecidableEq

/-- Embeds `AvailabilityFetcher.process_data` (the locked section): build
`dates_list`, compare `set(dates_list)` with the set of the stored
snapshot; on inequality store the new ordered list and notify, otherwise
leave everything untouched. -/
def processData (current : List String) (data : ApiData) : ProcessResult :=
  let datesList := parseDates data.getDates
  if datesList.toFinset ≠ current.toFinset then
    { snapshot := datesList, notified := true }
  else
    { snapshot := current, notified := false }

/-- The configured location identifiers (`config.LOCATIONS`, the keys of
`LOCATION_NAMES` in insertion order). -/
def LOCATIONS : List Int := [1, 5, 6, 7, 8, 9, 10]

/-- The configured location display names (`config.LOCATION_NAMES`);
totalised with `""` outside the configured keys. -/
def LOCATION_NAMES (l : Int) : String :=
  if l = 1 then "Bürgerbüro MITTE (Eberhardstr. 39)"
  else if l = 5 then "Bürgerbüro WEST (Bebelstr. 22)"
  else if l = 6 then "Bürgerbüro BAD CANNSTATT (Marktplatz 10)"
  else if l = 7 then "Bürgerbüro ZUFFENHAUSEN (Emil-Schuler-Platz 1)"
  else if l = 8 then "Bürgerbüro SÜD (Jella-Lepman-Str. 3)"
  else if l = 9 then "Bürgerbüro VAIHINGEN (Rathausplatz 1)"
  else if l = 10 then "Bürgerbüro OST (Schönbühlstr. 65)"
  else ""

/-- One row of the `subscribers` table (`database/models.py`): a chat
identity and the comma-separated interest string. -/
structure Subscriber where
  chatId : Int
  preferredLocations : String
deriving Repr, DecidableEq

/-- Embeds the membership test of `AvailabilityFetcher.notify_subscribers`:
`str(location) in subscriber.preferred_locations.split(',')`.
Lean's `String.splitOn ","` agrees with Python's `str.split(',')`,
including `"" ↦ [""]`. -/
def subscriberMatches (location : Int) (sub : Subscriber) : Bool :=
  (sub.preferredLocations.splitOn ",").contains (toString location)

/-- Embeds the message construction of
`AvailabilityFetcher.notify_subscribers`:
`f"Neue Termine verfügbar bei {LOCATION_NAMES[location]}:\n" + "\n".join(dates_list)`. -/
def buildMessage (locationName : String) (datesList : List String) : String :=
  "Neue Termine verfügbar bei " ++ locationName ++ ":\n" ++ String.intercalate "\n" datesList

/-- One attempted delivery: recipient chat id, the text handed to
`bot.send_message` and whether that call succeeded (a `false` models the
exception that the inner `try/except` catches and logs). -/
structure SendRecord where
  chatId : Int
  text : String
  delivered : Bool
deriving Repr, DecidableEq

/-- Embeds the subscriber loop of `AvailabilityFetcher.notify_subscribers`:
each subscriber in order is tested for interest in the location; for a
match, one `send_message` is attempted, its failure caught so the loop
continues.  `send` is the delivery environment. -/
def notifyLoop (location : Int) (message : String) (send : Int → String → Bool) :
    List Subscriber → List SendRecord
  | [] => []
  | sub :: rest =>
    if subscriberMatches location sub then
      { chatId := sub.chatId, text := message, delivered := send sub.chatId message } ::
        notifyLoop location message send rest
    else
      notifyLoop location message send rest

/-- Embeds `AvailabilityFetcher.notify_subscribers`: build the single
message for the location, query all subscribers and run the delivery
loop; the returned list records the attempted deliveries in order. -/
def notifySubscribers (location : Int) (datesList : List String)
    (subs : List Subscriber) (send : Int → String → Bool) : List SendRecord :=
  notifyLoop location (buildMessage (LOCATION_NAMES location) datesList) send subs

/-- One availability response as seen by
`AvailabilityFetcher.fetch_availability`: either a completed HTTP response
with a status code and a body (`none` models a body that is not valid
JSON, so `response.json()` raises), or a transport exception raised by the
request itself. -/
inductive HttpResponse where
  | ok (status : Nat) (body : Option ApiData)
  | exc
deriving Repr, DecidableEq

/-- The network environment one location sees during one fetch cycle: the
response to the first request, whether `open_session` would succeed when
called from the 401 branch, and the response to the retried request. -/
structure LocEnv where
  first : HttpResponse
  reopenOk : Bool
  retry : HttpResponse
deriving Repr, DecidableEq

/-- Embeds `requests.Response.raise_for_status`: it raises exactly for
status codes in `[400, 600)`. -/
def raisesForStatus (status : Nat) : Bool :=
  decide (400 ≤ status ∧ status < 600)

/-- Embeds the per-location body of the loop in
`AvailabilityFetcher.fetch_availability`, including the surrounding
`try/except` that turns every raised exception into a logged skip:
on 200 parse and process; on 401 re-open once and, if that succeeds,
retry the same request once (`raise_for_status`, parse, process); on any
other status or exception leave the snapshot alone. -/
def fetchLocation (env : LocEnv) (current : List String) : ProcessResult :=
  match env.first with
  | .exc => { snapshot := current, notified := false }
  | .ok status body =>
    if status = 200 then
      match body with
      | some data => processData current data
      | none => { snapshot := current, notified := false }
    else if status = 401 then
      if env.reopenOk then
        match env.retry with
        | .exc => { snapshot := current, notified := false }
        | .ok st2 body2 =>
          if raisesForStatus st2 then { snapshot := current, notified := false }
          else
            match body2 with
            | some data => processData current data
            | none => { snapshot := current, notified := false }
      else { snapshot := current, notified := false }
    else { snapshot := current, notified := false }

/-- Embeds the location loop of `AvailabilityFetcher.fetch_availability`:
locations are visited in configured order, each updating only its own
snapshot entry; the second component collects, in order, the locations
for which `notify_subscribers` ran together with the list they were
notified with. -/
def fetchCycle (env : Int → LocEnv) (avail : Int → List String) :
    List Int → (Int → List String) × List (Int × List String)
  | [] => (avail, [])
  | loc :: rest =>
    let r := fetchLocation (env loc) (avail loc)
    let tail := fetchCycle env (fun l => if l = loc then r.snapshot else avail l) rest
    (tail.1, (if r.notified then [(loc, r.snapshot)] else []) ++ tail.2)

/-- One attempt of the retry loop in `SessionManager.open_session`:
a transport error (`requests.RequestException`, including
`raise_for_status`), an invalid JSON body (`ValueError`), or a parsed
body whose `data.get('id')` is the given value (`none` models a missing
`id` field, i.e. Python `None`). -/
inductive SessionAttempt where
  | exc
  | badJson
  | parsed (id : Option String)
deriving Repr, DecidableEq

/-- Whether an attempt outcome is one of the two caught-and-retried
failures of `SessionManager.open_session`. -/
def attemptFails : SessionAttempt → Bool
  | .exc => true
  | .badJson => true
  | .parsed _ => false

/-- Python truthiness of the token value: `None` and `""` are falsy
(`if not self.auth_token`). -/
def tokenTruthy : Option String → Bool
  | none => false
  | some s => !s.isEmpty

/-- Embeds the `for attempt in range(1, max_attempts + 1)` loop of
`SessionManager.open_session` over the list of attempt outcomes still to
be consumed.  Returns the stored token after the call and the boolean
result.  A caught failure continues with the next attempt; a parsed body
first assigns `self.auth_token = data.get('id')` and then returns
`False` immediately on a falsy token, `True` otherwise. -/
def openSessionLoop (token : Option String) : List SessionAttempt → Option String × Bool
  | [] => (token, false)
  | a :: rest =>
    match a with
    | .exc => openSessionLoop token rest
    | .badJson => openSessionLoop token rest
    | .parsed id => if tokenTruthy id then (id, true) else (id, false)

/-- Embeds `SessionManager.open_session`: at most `max_attempts = 5`
attempts are consumed from the environment `attempts` (attempt `i` is
`attempts i`). -/
def openSession (token : Option String) (attempts : Nat → SessionAttempt) :
    Option String × Bool :=
  openSessionLoop token ((List.range 5).map attempts)

/-- Embeds `SessionManager.get_auth_token`: returns the current token and
leaves the stored token (the second component) untouched. -/
def getAuthToken (token : Option String) : Option String × Option String :=
  (token, token)

/-- Heap model for `AvailabilityFetcher.get_availability_data`: Python
list objects live in a heap addressed by references, and the internal
`availability_data` dict maps each location to the reference of its
snapshot list.  This makes the aliasing behaviour of `dict.copy()`
expressible. -/
structure FetcherStore where
  heap : Nat → List String
  avail : Int → Nat

/-- The internal availability state as the fetcher itself reads it
(`self.availability_data[location]` dereferences the stored list). -/
def internalView (s : FetcherStore) : Int → List String :=
  fun loc => s.heap (s.avail loc)

/-- Embeds `AvailabilityFetcher.get_availability_data`:
`self.availability_data.copy()` builds a fresh dict holding the same list
references (a shallow copy). -/
def getAvailabilityData (s : FetcherStore) : Int → Nat :=
  s.avail

/-- A mutation the caller can perform on the returned dict: rebinding a
key of the copy to a fresh list (`d[loc] = [...]`, allocating reference
`r` with contents `xs`), or mutating the list object reached through a
key in place (`d[loc].append(x)`). -/
inductive CallerMutation where
  | setKey (loc : Int) (r : Nat) (xs : List String)
  | appendAt (loc : Int) (x : String)
deriving Repr, DecidableEq

/-- Applies a caller mutation to the pair of the returned dict copy and
the heap: rebinding a key changes only the copy (and writes the fresh
list into its new reference), while `append` through a key writes the
list object that the copy's reference designates. -/
def applyMutation (copy : Int → Nat) (heap : Nat → List String) :
    CallerMutation → (Int → Nat) × (Nat → List String)
  | .setKey loc r xs =>
    (fun l => if l = loc then r else copy l, fun a => if a = r then xs else heap a)
  | .appendAt loc x =>
    (copy, fun a => if a = copy loc then heap (copy loc) ++ [x] else heap a)

/-- Whether the retried request of the 401 branch fails in a way that the
surrounding `try/except` catches: a transport exception or a
`raise_for_status` error. -/
def retryFails : HttpResponse → Bool
  | .exc => true
  | .ok st _ => raisesForStatus st

/-- Helper: a location that the cycle never visits keeps its snapshot. -/
theorem fetchCycle_fst_not_mem (env : Int → LocEnv) :
    ∀ (locs : List Int) (avail : Int → List String) (loc : Int), loc ∉ locs →
      (fetchCycle env avail locs).1 loc = avail loc := by
  intro locs
  induction locs with
  | nil => intro avail loc _; rfl
  | cons head rest ih =>
    intro avail loc h
    simp only [List.mem_cons, not_or] at h
    simp only [fetchCycle]
    rw [ih _ loc h.2]
    simp [h.1]

/-- Helper: in a duplicate-free cycle, each visited location ends with
exactly the result of its own per-location step, run on its own starting
snapshot — independent of every other location's environment. -/
theorem fetchCycle_fst_mem (env : Int → LocEnv) :
    ∀ (locs : List Int) (avail : Int → List String) (loc : Int), locs.Nodup → loc ∈ locs →
      (fetchCycle env avail locs).1 loc = (fetchLocation (env loc) (avail loc)).snapshot := by
  intro locs
  induction locs with
  | nil => intro _ _ _ h; exact absurd h (List.not_mem_nil _)
  | cons head rest ih =>
    intro avail loc hnd hmem
    have hnd' := List.nodup_cons.mp hnd
    simp only [fetchCycle]
    rcases List.mem_cons.mp hmem with heq | hmem'
    · subst heq
      rw [fetchCycle_fst_not_mem env rest _ loc hnd'.1]
      simp
    · have hne : loc ≠ head := fun h => hnd'.1 (h ▸ hmem')
      rw [ih _ loc hnd'.2 hmem']
      simp [hne]

/-- Helper: in a duplicate-free cycle, the notification log is exactly the
ordered list of locations whose own per-location step notified, paired
with the list they were notified with. -/
theorem fetchCycle_snd_eq (env : Int → LocEnv) :
    ∀ (locs : List Int) (avail : Int → List String), locs.Nodup →
      (fetchCycle env avail locs).2 =
        (locs.filter (fun loc => (fetchLocation (env loc) (avail loc)).notified)).map
          (fun loc => (loc, (fetchLocation (env loc) (avail loc)).snapshot)) := by
  intro locs
  induction locs with
  | nil => intro _ _; rfl
  | cons head rest ih =>
    intro avail hnd
    have hnd' := List.nodup_cons.mp hnd
    simp only [fetchCycle]
    rw [ih _ hnd'.2]
    have hagree : ∀ loc ∈ rest,
        (if loc = head then (fetchLocation (env head) (avail head)).snapshot else avail loc) =
          avail loc := by
      intro loc hmem
      have hne : loc ≠ head := fun h => hnd'.1 (h ▸ hmem)
      simp [hne]
    have hfilter :
        rest.filter (fun loc => (fetchLocation (env loc)
            ((fun l => if l = head then (fetchLocation (env head) (avail head)).snapshot
              else avail l) loc)).notified) =
          rest.filter (fun loc => (fetchLocation (env loc) (avail loc)).notified) := by
      refine List.filter_congr ?_
      intro loc hmem
      simp only [hagree loc hmem]
    rw [hfilter]
    have hmap :
        (rest.filter (fun loc => (fetchLocation (env loc) (avail loc)).notified)).map
            (fun loc => (loc, (fetchLocation (env loc)
              ((fun l => if l = head then (fetchLocation (env head) (avail head)).snapshot
                else avail l) loc)).snapshot)) =
          (rest.filter (fun loc => (fetchLocation (env loc) (avail loc)).notified)).map
            (fun loc => (loc, (fetchLocation (env loc) (avail loc)).snapshot)) := by
      refine List.map_congr_left ?_
      intro loc hmem
      simp only [hagree loc (List.mem_of_mem_filter hmem)]
    rw [hmap]
    by_cases hnot : (fetchLocation (env head) (avail head)).notified
    · simp [hnot]
    · simp [hnot]

/-- Helper: the per-location step of a cycle leaves the snapshot alone and
does not notify when the first response is a transport exception or has a
status other than 200 and 401. -/
theorem fetchLocation_skip_other (env : LocEnv) (current : List String)
    (h : env.first = HttpResponse.exc ∨
      ∃ st b, env.first = HttpResponse.ok st b ∧ st ≠ 200 ∧ st ≠ 401) :
    fetchLocation env current = { snapshot := current, notified := false } := by
  rcases h with h | ⟨st, b, h, h200, h401⟩
  · simp [fetchLocation, h]
  · simp [fetchLocation, h, h200, h401]

/-- Helper: the per-location step of a cycle leaves the snapshot alone and
does not notify when the first response is a 401 and either the re-open
fails or the retried request fails. -/
theorem fetchLocation_skip_401 (env : LocEnv) (current : List String) (b : Option ApiData)
    (h401 : env.first = HttpResponse.ok 401 b)
    (hfail : env.reopenOk = false ∨ retryFails env.retry = true) :
    fetchLocation env current = { snapshot := current, notified := false } := by
  rcases hfail with hro | hrt
  · simp [fetchLocation, h401, hro]
  · cases hretry : env.retry with
    | exc => simp [fetchLocation, h401, hretry]
    | ok st2 body2 =>
      rw [hretry] at hrt
      simp only [retryFails] at hrt
      by_cases hro : env.reopenOk
      · simp [fetchLocation, h401, hretry, hro, hrt]
      · simp [fetchLocation, h401, hro]

/-- Helper: in a duplicate-free cycle, a location whose own step skips
(returns the unchanged snapshot without notifying) keeps its snapshot, is
never notified for, and every other location is still processed normally
on its own starting snapshot. -/
theorem fetchCycle_skip (env : Int → LocEnv) (avail : Int → List String)
    (locs : List Int) (loc : Int) (hnd : locs.Nodup) (hmem : loc ∈ locs)
    (hloc : fetchLocation (env loc) (avail loc) = { snapshot := avail loc, notified := false }) :
    (fetchCycle env avail locs).1 loc = avail loc ∧
    (∀ p ∈ (fetchCycle env avail locs).2, p.1 ≠ loc) ∧
    (∀ loc₂ ∈ locs, loc₂ ≠ loc →
      (fetchCycle env avail locs).1 loc₂ = (fetchLocation (env loc₂) (avail loc₂)).snapshot) := by
  refine ⟨?_, ?_, ?_⟩
  · rw [fetchCycle_fst_mem env locs avail loc hnd hmem, hloc]
  · intro p hp
    rw [fetchCycle_snd_eq env locs avail hnd] at hp
    rcases List.mem_map.mp hp with ⟨l, hl, hlp⟩
    have hl' := List.mem_filter.mp hl
    intro hple
    have : l = loc := by rw [← hlp] at hple; exact hple
    rw [this, hloc] at hl'
    simp at hl'
  · intro loc₂ hmem₂ _
    exact fetchCycle_fst_mem env locs avail loc₂ hnd hmem₂

/-- Helper: the delivery loop of `notify_subscribers` produces one record
per matching subscriber, in order. -/
theorem notifyLoop_eq (location : Int) (message : String) (send : Int → String → Bool) :
    ∀ subs : List Subscriber,
      notifyLoop location message send subs =
        (subs.filter (subscriberMatches location)).map
          (fun sub => { chatId := sub.chatId, text := message,
                        delivered := send sub.chatId message }) := by
  intro subs
  induction subs with
  | nil => rfl
  | cons sub rest ih =>
    by_cases h : subscriberMatches location sub
    · simp [notifyLoop, h, ih]
    · simp [notifyLoop, h, ih]

/-- Helper: the session-open loop skips over failed attempts. -/
theorem openSessionLoop_append_fail (token : Option String) :
    ∀ (pre rest : List SessionAttempt), (∀ a ∈ pre, attemptFails a = true) →
      openSessionLoop token (pre ++ rest) = openSessionLoop token rest := by
  intro pre
  induction pre with
  | nil => intro rest _; rfl
  | cons a pre' ih =>
    intro rest h
    have ha := h a (List.mem_cons_self a pre')
    have h' : ∀ b ∈ pre', attemptFails b = true :=
      fun b hb => h b (List.mem_cons_of_mem a hb)
    cases a with
    | exc => exact ih rest h'
    | badJson => exact ih rest h'
    | parsed id => simp [attemptFails] at ha

/-- Helper: the session-open loop stops at the first parsed response: the
token is assigned that response's `id` and the call returns the token's
truthiness, regardless of any later attempts. -/
theorem openSessionLoop_parsed (token : Option String) (id : Option String)
    (pre rest : List SessionAttempt) (h : ∀ a ∈ pre, attemptFails a = true) :
    openSessionLoop token (pre ++ SessionAttempt.parsed id :: rest) = (id, tokenTruthy id) := by
  rw [openSessionLoop_append_fail token pre _ h]
  by_cases ht : tokenTruthy id
  · simp [openSessionLoop, ht]
  · simp [openSessionLoop, ht]

/-- Helper: the attempt list consumed by `openSession` splits at any
attempt index below the budget. -/
theorem openSession_attempt_split (attempts : Nat → SessionAttempt) (k : Nat) (hk : k < 5) :
    (List.range 5).map attempts =
      ((List.range' 0 k).map attempts) ++
        attempts k :: ((List.range' (k + 1) (5 - (k + 1))).map attempts) := by
  have h5 : List.range' 0 5 = List.range' 0 k ++ List.range' k (5 - k) := by
    have hsplit := List.range'_append 0 k (5 - k) 1
    simp only [one_mul, Nat.zero_add] at hsplit
    have heq : 5 - k + k = 5 := by omega
    rw [heq] at hsplit
    exact hsplit.symm
  have hsucc : List.range' k (5 - k) = k :: List.range' (k + 1) (5 - (k + 1)) := by
    have h1 : 5 - k = (5 - (k + 1)) + 1 := by omega
    rw [h1, List.range'_succ]
  rw [List.range_eq_range', h5, hsucc]
  simp

/-- C1: the per-location update step of a fetch cycle notifies exactly
when the unordered set of newly parsed date strings differs from the
unordered set of the stored snapshot; when they differ the snapshot is
replaced by the new list in parse order, and when they are equal the
snapshot is not mutated and no notification is invoked. -/
theorem processData_change_detection (current : List String) (data : ApiData) :
    ((processData current data).notified = true ↔
      (parseDates data.getDates).toFinset ≠ current.toFinset) ∧
    ((parseDates data.getDates).toFinset ≠ current.toFinset →
      (processData current data).snapshot = parseDates data.getDates) ∧
    ((parseDates data.getDates).toFinset = current.toFinset →
      (processData current data).snapshot = current ∧
        (processData current data).notified = false) := by
  by_cases h : (parseDates data.getDates).toFinset = current.toFinset
  · simp [processData, h]
  · simp [processData, h]

/-- Witness: the C1 theorem applied to a location whose stored snapshot
holds one date while the payload parses to two. -/
theorem processData_change_detection_witness :
    (processData ["01.01.2025"]
        { availabilityDates := some [Entry.vstr "01.01.2025", Entry.vstr "02.01.2025"] }).snapshot =
      parseDates (ApiData.getDates
        { availabilityDates := some [Entry.vstr "01.01.2025", Entry.vstr "02.01.2025"] }) :=
  (processData_change_detection ["01.01.2025"]
    { availabilityDates := some [Entry.vstr "01.01.2025", Entry.vstr "02.01.2025"] }).2.1
    (by decide)

/-- C2: a dispatch for a changed location attempts exactly one message —
the location display name followed by the new dates, one per line — to
exactly those subscribers whose comma-split interest string contains the
location id as a string, in subscriber order; the attempted recipients
and texts do not depend on the per-recipient delivery outcomes, so one
caught failure cannot prevent delivery to the remaining subscribers. -/
theorem notifySubscribers_dispatch (location : Int) (datesList : List String)
    (subs : List Subscriber) (send : Int → String → Bool) :
    ((notifySubscribers location datesList subs send).map SendRecord.chatId =
      (subs.filter (fun sub =>
        (sub.preferredLocations.splitOn ",").contains (toString location))).map
          Subscriber.chatId) ∧
    (∀ r ∈ notifySubscribers location datesList subs send,
      r.text = "Neue Termine verfügbar bei " ++ LOCATION_NAMES location ++ ":\n" ++
        String.intercalate "\n" datesList) ∧
    (∀ send₂ : Int → String → Bool,
      (notifySubscribers location datesList subs send₂).map (fun r => (r.chatId, r.text)) =
        (notifySubscribers location datesList subs send).map (fun r => (r.chatId, r.text))) := by
  refine ⟨?_, ?_, ?_⟩
  · rw [notifySubscribers, notifyLoop_eq, List.map_map]
    rfl
  · intro r hr
    rw [notifySubscribers, notifyLoop_eq] at hr
    rcases List.mem_map.mp hr with ⟨sub, _, rfl⟩
    rfl
  · intro send₂
    rw [notifySubscribers, notifyLoop_eq, notifySubscribers, notifyLoop_eq,
      List.map_map, List.map_map]
    rfl

/-- Witness: the C2 theorem applied to two concrete subscribers, showing
the attempted recipients and texts are the same under an all-failing and
an all-succeeding delivery environment. -/
theorem notifySubscribers_dispatch_witness :
    (notifySubscribers 1 ["01.01.2025"]
        [{ chatId := 42, preferredLocations := "1,5" },
         { chatId := 43, preferredLocations := "6" }] (fun _ _ => false)).map
        (fun r => (r.chatId, r.text)) =
      (notifySubscribers 1 ["01.01.2025"]
        [{ chatId := 42, preferredLocations := "1,5" },
         { chatId := 43, preferredLocations := "6" }] (fun _ _ => true)).map
        (fun r => (r.chatId, r.text)) :=
  (notifySubscribers_dispatch 1 ["01.01.2025"]
    [{ chatId := 42, preferredLocations := "1,5" },
     { chatId := 43, preferredLocations := "6" }] (fun _ _ => true)).2.2
    (fun _ _ => false)

/-- C3: `open_session` makes at most 5 attempts — transport or JSON-parse
failures continue to the next attempt, after 5 such failures the call
returns failure deterministically and never consults a sixth attempt —
while a parsed response with a missing or empty token field makes the
call return failure immediately, without consuming the remaining
attempts. -/
theorem openSession_retry_budget (token : Option String) (attempts : Nat → SessionAttempt) :
    ((∀ i, i < 5 → attemptFails (attempts i) = true) →
      openSession token attempts = (token, false)) ∧
    (∀ attempts₂ : Nat → SessionAttempt, (∀ i, i < 5 → attempts₂ i = attempts i) →
      openSession token attempts₂ = openSession token attempts) ∧
    (∀ k id, k < 5 → (∀ i, i < k → attemptFails (attempts i) = true) →
      attempts k = SessionAttempt.parsed id → tokenTruthy id = false →
      ∀ attempts₂ : Nat → SessionAttempt, (∀ i, i ≤ k → attempts₂ i = attempts i) →
        openSession token attempts₂ = (id, false)) := by
  refine ⟨?_, ?_, ?_⟩
  · intro hall
    have hfail : ∀ a ∈ (List.range 5).map attempts, attemptFails a = true := by
      intro a ha
      rcases List.mem_map.mp ha with ⟨i, hi, rfl⟩
      exact hall i (List.mem_range.mp hi)
    have := openSessionLoop_append_fail token ((List.range 5).map attempts) [] hfail
    simpa [openSession] using this
  · intro attempts₂ hagree
    unfold openSession
    congr 1
    refine List.map_congr_left ?_
    intro i hi
    exact hagree i (List.mem_range.mp hi)
  · intro k id hk hfail hparsed hfalsy attempts₂ hagree
    have hsplit := openSession_attempt_split attempts₂ k hk
    have hpre : ∀ a ∈ (List.range' 0 k).map attempts₂, attemptFails a = true := by
      intro a ha
      rcases List.mem_map.mp ha with ⟨i, hi, rfl⟩
      have hik := (List.mem_range'_1.mp hi).2
      rw [hagree i (by omega)]
      exact hfail i (by omega)
    have hk2 : attempts₂ k = SessionAttempt.parsed id := by
      rw [hagree k (Nat.le_refl k)]; exact hparsed
    rw [openSession, hsplit, hk2, openSessionLoop_parsed token id _ _ hpre, hfalsy]

/-- Witness: the C3 theorem applied to an environment whose every attempt
raises a transport error. -/
theorem openSession_retry_budget_witness :
    openSession none (fun _ => SessionAttempt.exc) = (none, false) :=
  (openSession_retry_budget none (fun _ => SessionAttempt.exc)).1 (fun _ _ => rfl)

/-- C4: during one fetch cycle a 401 for a location consults exactly one
re-open outcome and at most one retry response (the two the location's
environment provides); if the re-open fails or the retried request fails,
that location's snapshot is left unchanged and no notification is sent
for it, while every other location of the duplicate-free cycle is still
processed normally on its own starting snapshot — the cycle does not
crash. -/
theorem fetchCycle_401_isolation (env : Int → LocEnv) (avail : Int → List String)
    (locs : List Int) (loc : Int) (b : Option ApiData)
    (hnd : locs.Nodup) (hmem : loc ∈ locs)
    (h401 : (env loc).first = HttpResponse.ok 401 b)
    (hfail : (env loc).reopenOk = false ∨ retryFails (env loc).retry = true) :
    (fetchCycle env avail locs).1 loc = avail loc ∧
    (∀ p ∈ (fetchCycle env avail locs).2, p.1 ≠ loc) ∧
    (∀ loc₂ ∈ locs, loc₂ ≠ loc →
      (fetchCycle env avail locs).1 loc₂ = (fetchLocation (env loc₂) (avail loc₂)).snapshot) :=
  fetchCycle_skip env avail locs loc hnd hmem
    (fetchLocation_skip_401 (env loc) (avail loc) b h401 hfail)

/-- Witness: the C4 theorem applied to a cycle over the configured
locations in which location 5 receives a 401 and the re-open fails. -/
theorem fetchCycle_401_isolation_witness :
    (fetchCycle
      (fun l => if l = 5 then
          { first := HttpResponse.ok 401 none, reopenOk := false, retry := HttpResponse.exc }
        else
          { first := HttpResponse.ok 200 (some { availabilityDates := some [Entry.vstr "x"] }),
            reopenOk := true, retry := HttpResponse.exc })
      (fun _ => []) LOCATIONS).1 5 = [] :=
  (fetchCycle_401_isolation
    (fun l => if l = 5 then
        { first := HttpResponse.ok 401 none, reopenOk := false, retry := HttpResponse.exc }
      else
        { first := HttpResponse.ok 200 (some { availabilityDates := some [Entry.vstr "x"] }),
          reopenOk := true, retry := HttpResponse.exc })
    (fun _ => []) LOCATIONS 5 none (by decide) (by decide) (by decide) (Or.inl (by decide))).1

/-- C5: within one duplicate-free fetch cycle, a transport exception or a
non-success status other than 200 and 401 for one location skips only
that location — its snapshot is unchanged and it is never notified for —
while every other location is still processed normally on its own
starting snapshot, and the notification log is exactly that of the
per-location steps. -/
theorem fetchCycle_error_isolation (env : Int → LocEnv) (avail : Int → List String)
    (locs : List Int) (loc : Int)
    (hnd : locs.Nodup) (hmem : loc ∈ locs)
    (hfail : (env loc).first = HttpResponse.exc ∨
      ∃ st b, (env loc).first = HttpResponse.ok st b ∧ st ≠ 200 ∧ st ≠ 401) :
    (fetchCycle env avail locs).1 loc = avail loc ∧
    (∀ p ∈ (fetchCycle env avail locs).2, p.1 ≠ loc) ∧
    (∀ loc₂ ∈ locs, loc₂ ≠ loc →
      (fetchCycle env avail locs).1 loc₂ = (fetchLocation (env loc₂) (avail loc₂)).snapshot) ∧
    ((fetchCycle env avail locs).2 =
      (locs.filter (fun l => (fetchLocation (env l) (avail l)).notified)).map
        (fun l => (l, (fetchLocation (env l) (avail l)).snapshot))) := by
  have h := fetchCycle_skip env avail locs loc hnd hmem
    (fetchLocation_skip_other (env loc) (avail loc) hfail)
  exact ⟨h.1, h.2.1, h.2.2, fetchCycle_snd_eq env locs avail hnd⟩

/-- Witness: the C5 theorem applied to a cycle over the configured
locations in which the fetch for location 6 raises a transport error;
location 7 is still processed normally. -/
theorem fetchCycle_error_isolation_witness :
    (fetchCycle
      (fun l => if l = 6 then
          { first := HttpResponse.exc, reopenOk := false, retry := HttpResponse.exc }
        else
          { first := HttpResponse.ok 200 (some { availabilityDates := some [Entry.vstr "x"] }),
            reopenOk := false, retry := HttpResponse.exc })
      (fun _ => []) LOCATIONS).1 7 =
      (fetchLocation
        { first := HttpResponse.ok 200 (some { availabilityDates := some [Entry.vstr "x"] }),
          reopenOk := false, retry := HttpResponse.exc } []).snapshot :=
  ((fetchCycle_error_isolation
    (fun l => if l = 6 then
        { first := HttpResponse.exc, reopenOk := false, retry := HttpResponse.exc }
      else
        { first := HttpResponse.ok 200 (some { availabilityDates := some [Entry.vstr "x"] }),
          reopenOk := false, retry := HttpResponse.exc })
    (fun _ => []) LOCATIONS 6 (by decide) (by decide) (Or.inl (by decide))).2.2.1 7
    (by decide) (by decide))

/-- C6: parsing maps an integer entry to the `DD.MM.YYYY` display string
of its value read as milliseconds since the epoch, passes a string entry
through unchanged, applies the same treatment to the nested `date` field
of an object entry, and skips an entry of any other shape while the
remaining entries are still processed in order. -/
theorem parseEntry_shapes (n : Int) (s : String) (e : Entry) (pre post : List Entry) :
    parseEntry (Entry.vint n) = some (formatTimestamp n) ∧
    parseEntry (Entry.vstr s) = some s ∧
    parseEntry (Entry.vobjWith (Entry.vint n)) = some (formatTimestamp n) ∧
    parseEntry (Entry.vobjWith (Entry.vstr s)) = some s ∧
    parseEntry Entry.vother = none ∧
    parseEntry Entry.vobjMissing = none ∧
    (parseEntry e = none →
      parseDates (pre ++ e :: post) = parseDates pre ++ parseDates post) := by
  refine ⟨rfl, rfl, rfl, rfl, rfl, rfl, ?_⟩
  intro he
  simp [parseDates, List.filterMap_append, List.filterMap_cons, he]

/-- Witness: the C6 theorem applied to a payload in which an entry of
unexpected shape sits between two string entries. -/
theorem parseEntry_shapes_witness :
    parseDates ([Entry.vstr "a"] ++ Entry.vother :: [Entry.vstr "b"]) =
      parseDates [Entry.vstr "a"] ++ parseDates [Entry.vstr "b"] :=
  (parseEntry_shapes 0 "" Entry.vother [Entry.vstr "a"] [Entry.vstr "b"]).2.2.2.2.2.2 rfl

/-- C10: the raw millisecond timestamp 1700000000000 and its
object-wrapped form parse through the same logic to one and the same
`DD.MM.YYYY` string (in the UTC model, `14.11.2023`). -/
theorem parse_roundtrip_1700000000000 :
    parseEntry (Entry.vint 1700000000000) =
        parseEntry (Entry.vobjWith (Entry.vint 1700000000000)) ∧
    parseEntry (Entry.vint 1700000000000) = some (formatTimestamp 1700000000000) ∧
    formatTimestamp 1700000000000 = "14.11.2023" :=
  ⟨rfl, rfl, by decide⟩

/-- C7 counterexample: `get_availability_data` returns `dict.copy()`, a
shallow copy, so at this concrete store appending to an inner list
through the returned structure changes the fetcher's internal
availability state for location 1. -/
theorem getAvailabilityData_shallow_counterexample :
    (applyMutation
        (getAvailabilityData
          { heap := fun a => if a = 0 then ["01.01.2025"] else [], avail := fun _ => 0 })
        (fun a => if a = 0 then ["01.01.2025"] else [])
        (CallerMutation.appendAt 1 "02.01.2025")).2
      (FetcherStore.avail
        { heap := fun a => if a = 0 then ["01.01.2025"] else [], avail := fun _ => 0 } 1) ≠
    internalView
      { heap := fun a => if a = 0 then ["01.01.2025"] else [], avail := fun _ => 0 } 1 := by
  decide

/-- C7 amended: mutating the returned mapping itself — rebinding a key to
a freshly allocated list — leaves the fetcher's internal availability
state unchanged, but the copy is shallow, so mutating an inner list in
place through the shared reference is not isolated. -/
theorem getAvailabilityData_topLevel_isolation (s : FetcherStore) (loc : Int) (r : Nat)
    (xs : List String) (hfresh : ∀ l, r ≠ s.avail l) :
    (fun l => (applyMutation (getAvailabilityData s) s.heap
      (CallerMutation.setKey loc r xs)).2 (s.avail l)) = internalView s := by
  funext l
  show (if s.avail l = r then xs else s.heap (s.avail l)) = s.heap (s.avail l)
  exact if_neg (fun h => hfresh l h.symm)

/-- Witness: the C7 amended theorem applied to a concrete store and a
rebinding of key 1 to a fresh reference. -/
theorem getAvailabilityData_topLevel_isolation_witness :
    (fun l => (applyMutation
      (getAvailabilityData { heap := fun _ => [], avail := fun _ => 0 })
      (FetcherStore.heap { heap := fun _ => [], avail := fun _ => 0 })
      (CallerMutation.setKey 1 5 ["02.01.2025"])).2
      (FetcherStore.avail { heap := fun _ => [], avail := fun _ => 0 } l)) =
    internalView { heap := fun _ => [], avail := fun _ => 0 } :=
  getAvailabilityData_topLevel_isolation
    { heap := fun _ => [], avail := fun _ => 0 } 1 5 ["02.01.2025"]
    (fun l => by show (5 : Nat) ≠ 0; decide)

/-- C8 counterexample: an execution of `open_session` whose first attempt
parses to a body without an `id` field returns `False` yet overwrites
the stored token (here from `"abc"` to `None`), because the assignment
happens before the truthiness check. -/
theorem openSession_token_overwrite_counterexample :
    (openSession (some "abc") (fun _ => SessionAttempt.parsed none)).2 = false ∧
    (openSession (some "abc") (fun _ => SessionAttempt.parsed none)).1 ≠ some "abc" := by
  decide

/-- C8 amended: the stored token is mutated only by an attempt whose
response body parses: exhausting all 5 attempts on transport or parse
failures returns `False` with the token unchanged, while the first
parsed attempt always assigns its `id` value to the token — returning
`True` exactly when that value is truthy, and `False` (token
overwritten all the same) when it is missing or empty; `get_auth_token`
never mutates the token. -/
theorem openSession_token_mutation (token : Option String) (attempts : Nat → SessionAttempt) :
    ((∀ i, i < 5 → attemptFails (attempts i) = true) →
      openSession token attempts = (token, false)) ∧
    (∀ k id, k < 5 → (∀ i, i < k → attemptFails (attempts i) = true) →
      attempts k = SessionAttempt.parsed id →
      openSession token attempts = (id, tokenTruthy id)) ∧
    (getAuthToken token).2 = token := by
  refine ⟨?_, ?_, rfl⟩
  · intro hall
    have hfail : ∀ a ∈ (List.range 5).map attempts, attemptFails a = true := by
      intro a ha
      rcases List.mem_map.mp ha with ⟨i, hi, rfl⟩
      exact hall i (List.mem_range.mp hi)
    have := openSessionLoop_append_fail token ((List.range 5).map attempts) [] hfail
    simpa [openSession] using this
  · intro k id hk hfail hparsed
    have hsplit := openSession_attempt_split attempts k hk
    have hpre : ∀ a ∈ (List.range' 0 k).map attempts, attemptFails a = true := by
      intro a ha
      rcases List.mem_map.mp ha with ⟨i, hi, rfl⟩
      have hik := (List.mem_range'_1.mp hi).2
      exact hfail i (by omega)
    rw [openSession, hsplit, hparsed, openSessionLoop_parsed token id _ _ hpre]

/-- Witness: the C8 amended theorem applied to an environment whose
first attempt parses to a valid token. -/
theorem openSession_token_mutation_witness :
    openSession (some "abc") (fun _ => SessionAttempt.parsed (some "tok")) =
      (some "tok", true) :=
  (openSession_token_mutation (some "abc") (fun _ => SessionAttempt.parsed (some "tok"))).2.1
    0 (some "tok") (by decide) (fun i h => absurd h (Nat.not_lt_zero i)) rfl

/-- C9 counterexample: a 200 body without the `availability-dates` field
defaults to the empty list, so at a location whose stored snapshot is
non-empty the snapshot is replaced (cleared) and a notification fires,
rather than the location being treated as failed with its snapshot
unchanged. -/
theorem processData_missing_field_counterexample :
    (processData ["01.01.2025"] { availabilityDates := none }).snapshot ≠ ["01.01.2025"] ∧
    (processData ["01.01.2025"] { availabilityDates := none }).notified = true := by
  decide

/-- C9 amended: a 200 response whose body lacks the `availability-dates`
field is treated as an empty date list: a location whose stored snapshot
is empty is left unchanged with no notification, but a location whose
stored snapshot is non-empty has it replaced by the empty list and a
notification dispatched; in either case the cycle still processes every
location of a duplicate-free cycle on its own per-location step. -/
theorem processData_missing_field (current : List String) (data : ApiData)
    (h : data.availabilityDates = none) :
    (current = [] →
      processData current data = { snapshot := current, notified := false }) ∧
    (current ≠ [] →
      processData current data = { snapshot := [], notified := true }) ∧
    (∀ (env : Int → LocEnv) (avail : Int → List String) (locs : List Int) (loc₂ : Int),
      locs.Nodup → loc₂ ∈ locs →
      (fetchCycle env avail locs).1 loc₂ = (fetchLocation (env loc₂) (avail loc₂)).snapshot) := by
  have hdates : parseDates data.getDates = [] := by
    simp [ApiData.getDates, h, parseDates]
  refine ⟨?_, ?_, ?_⟩
  · intro hc
    subst hc
    simp [processData, hdates]
  · intro hc
    have hne : (∅ : Finset String) ≠ current.toFinset := by
      intro heq
      exact hc ((List.toFinset_eq_empty_iff current).mp heq.symm)
    simp [processData, hdates, hne]
  · intro env avail locs loc₂ hnd hmem
    exact fetchCycle_fst_mem env locs avail loc₂ hnd hmem

/-- Witness: the C9 amended theorem applied to a non-empty stored
snapshot and a body without the field. -/
theorem processData_missing_field_witness :
    processData ["01.01.2025"] { availabilityDates := none } =
      { snapshot := [], notified := true } :=
  (processData_missing_field ["01.01.2025"] { availabilityDates := none } rfl).2.1 (by decide)

end AmtNotifier
